import Mathlib

/-!
Shallow embedding of the process-management syscalls of the os5 kernel
(src/os5/src/syscall/process.rs), together with theorems checking the
natural-language specification against the code.

Machine integers are modelled as Nat/Int with explicit reductions modulo
2^w where the source casts between widths.  A Rust panic (a failed
unwrap, an out-of-bounds slice index, a division by zero) is modelled by
the embedded function returning none: the kernel does not produce a
return value in those executions.
-/

namespace OS5

/-- Page size of the machine (4 KiB pages, as in the rCore memory layer). -/
def PAGE_SIZE : Nat := 4096

/-- A page-table entry as consumed by the syscall code: the physical page
number plus the writable permission bit.  The source calls
PageTable::translate(vpn) and then .ppn() on the entry; it never reads
the permission bits, which is itself checked by a theorem below. -/
structure PTE where
  ppn : Nat
  writable : Bool
deriving DecidableEq, Repr

/-- A page table, as the translation function of one address space:
virtual page number to entry, none when the page is unmapped.  This is
the contract of AddressSpace.translate from the memory layer. -/
def PageTable := Nat → Option PTE

/-- Physical memory: byte value at each physical byte address. -/
def Mem := Nat → Nat

/-- Store one byte (reduced modulo 256, as a u8 store) at a physical
address. -/
def writeByte (m : Mem) (a v : Nat) : Mem :=
  fun x => if x = a then v % 256 else m x

/-- Store a list of bytes at consecutive physical addresses, mirroring a
raw contiguous store through a physical pointer. -/
def writeBytesPhys : Mem → Nat → List Nat → Mem
  | m, _, [] => m
  | m, a, b :: bs => writeBytesPhys (writeByte m a b) (a + 1) bs

/-- Byte i of the little-endian representation of n, as the source
computes it: (n >> (8*i)) & 0xff. -/
def byteOf (n i : Nat) : Nat := (n >>> (8 * i)) &&& 0xff

/-- One store into the byte array of a single frame
(PhysPageNum::get_bytes_array, a 4096-byte slice): indexing at or past
PAGE_SIZE is a Rust slice panic, modelled as none. -/
def frameWrite (base : Nat) (pm : Option Mem) (idx v : Nat) : Option Mem :=
  match pm with
  | none => none
  | some m => if idx < PAGE_SIZE then some (writeByte m (base + idx) v) else none

/-- Embedding of sys_get_time (process.rs lines 112-135).  Arguments: the
page table of the current address space, physical memory, the raw user
pointer ts, and the clock reading us = get_time_us().  The source
translates only the page containing ts, fetches that single frame as a
4096-byte array, computes sec = us / 1_000_000_000 and
usec = us % 1_000_000_000, and stores 4 bytes of sec at offset..offset+3
and 4 bytes of usec at offset+8..offset+11 of that one frame.  none
models a kernel panic (failed unwrap of translate, or an index past the
end of the frame). -/
def sys_get_time (pt : PageTable) (m : Mem) (ts : Nat) (us : Nat) : Option (Int × Mem) :=
  let vpn := ts / PAGE_SIZE
  let offset := ts % PAGE_SIZE
  match pt vpn with
  | none => none
  | some pte =>
    let base := pte.ppn * PAGE_SIZE
    let sec := us / 1000000000
    let usec := us % 1000000000
    let m0 := frameWrite base (some m) (0 + offset) (byteOf sec 0)
    let m1 := frameWrite base m0 (1 + offset) (byteOf sec 1)
    let m2 := frameWrite base m1 (2 + offset) (byteOf sec 2)
    let m3 := frameWrite base m2 (3 + offset) (byteOf sec 3)
    let m4 := frameWrite base m3 (8 + offset) (byteOf usec 0)
    let m5 := frameWrite base m4 (9 + offset) (byteOf usec 1)
    let m6 := frameWrite base m5 (10 + offset) (byteOf usec 2)
    let m7 := frameWrite base m6 (11 + offset) (byteOf usec 3)
    match m7 with
    | none => none
    | some mem => some (0, mem)

/-- Embedding of sys_task_info (process.rs lines 138-158).  The source
translates only the page containing ti, converts the resulting ppn to a
physical address pa = ppn * PAGE_SIZE, and performs one raw struct store
*task_info = tmp at pa + offset: size_of TaskInfo consecutive bytes in
PHYSICAL memory, with no further translation and no bounds check at the
page boundary.  enc is the byte encoding of the stored
TaskInfo { status: Running, syscall_times, time } value (the Rust layout
of the struct is unspecified; only the placement of its bytes matters to
the claims, so the encoded bytes are passed in).  none models the kernel
panic of a failed unwrap of translate. -/
def sys_task_info (pt : PageTable) (m : Mem) (ti : Nat) (enc : List Nat) : Option (Int × Mem) :=
  let vpn := ti / PAGE_SIZE
  let offset := ti % PAGE_SIZE
  match pt vpn with
  | none => none
  | some pte =>
    let pa := pte.ppn * PAGE_SIZE
    some (0, writeBytesPhys m (pa + offset) enc)

/-- Task status of a process control block. -/
inductive TaskStatus where
  | Ready
  | Running
  | Zombie
deriving DecidableEq, Repr

/-- The data sys_waitpid reads from one child PCB: its pid (getpid), its
status (inner_exclusive_access().is_zombie()) and its exit_code. -/
structure Child where
  pid : Nat
  status : TaskStatus
  exit_code : Int
deriving DecidableEq, Repr

/-- The fields of TaskControlBlockInner touched by the syscalls under
study: the scheduling fields assigned by sys_set_priority (priority, an
isize, and stride, a u32 — the source divides BIG_STRIDE by a u32) and
the children list read and pruned by sys_waitpid. -/
structure ProcInner where
  priority : Int
  stride : Nat
  children : List Child

/-- The usize cast of an isize value: reduction modulo 2^64. -/
def isizeToUsize (p : Int) : Nat := (p % (18446744073709551616 : Int)).toNat

/-- The u32 cast of an isize value: reduction modulo 2^32. -/
def isizeToU32 (p : Int) : Nat := (p % (4294967296 : Int)).toNat

/-- Modelled from the spec: BIG_STRIDE (crate::config, not under src/) is
a configured large constant; the source divides it by a u32 priority.
The concrete value is not given by the sources in src/, so a
representative large u32 constant is fixed here; no theorem below
depends on the particular value. -/
def BIG_STRIDE : Nat := 2147483647

/-- Embedding of sys_set_priority (process.rs lines 161-170).  Arguments
prio ≤ 1 are rejected with -1 and no state change.  Otherwise the source
assigns inner.priority = prio and inner.stride = BIG_STRIDE / (prio as
u32) and returns prio.  A prio whose u32 cast is 0 (e.g. 2^32) makes the
division panic, modelled as none. -/
def sys_set_priority (inner : ProcInner) (prio : Int) : Option (Int × ProcInner) :=
  if prio ≤ 1 then
    some (-1, inner)
  else
    let p32 := isizeToU32 prio
    if p32 = 0 then none
    else some (prio, { inner with priority := prio, stride := BIG_STRIDE / p32 })

/-- The match predicate of sys_waitpid on one child, exactly as the
source writes it: pid == -1 || pid as usize == p.getpid(). -/
def childMatches (pid : Int) (c : Child) : Bool :=
  pid == -1 || isizeToUsize pid == c.pid

/-- TaskControlBlockInner::is_zombie on the projected child record. -/
def is_zombie (c : Child) : Bool := c.status == TaskStatus.Zombie

/-- The enumerate().find(..) of sys_waitpid: index and child of the first
child that is a zombie AND matches the pid argument, in child-list
order; the predicate tests is_zombie first, as the source does. -/
def findZombie (pid : Int) : List Child → Option (Nat × Child)
  | [] => none
  | c :: cs =>
    if is_zombie c && childMatches pid c then some (0, c)
    else
      match findZombie pid cs with
      | some (i, c2) => some (i + 1, c2)
      | none => none

/-- Embedding of translated_refmut(token, exit_code_ptr) followed by the
i32 store: the address of the output location is translated through the
page table of the callers address space and the four little-endian bytes
of the value (two-complement, reduced modulo 2^32) are stored there.
none models the kernel panic of a failed unwrap when the page holding
the pointer is unmapped.  i32Bytes gives the four little-endian bytes of
an i32 value (two-complement, reduced modulo 2^32). -/
def i32Bytes (v : Int) : List Nat :=
  let u := (v % (4294967296 : Int)).toNat
  [byteOf u 0, byteOf u 1, byteOf u 2, byteOf u 3]

def translated_refmut (pt : PageTable) (m : Mem) (va : Nat) (v : Int) : Option Mem :=
  match pt (va / PAGE_SIZE) with
  | none => none
  | some pte =>
    some (writeBytesPhys m (pte.ppn * PAGE_SIZE + va % PAGE_SIZE) (i32Bytes v))

/-- Embedding of sys_waitpid (process.rs lines 76-109).  If no child at
all matches the pid argument the call returns -1 with no state change.
Otherwise the first child that is a zombie and matches is removed from
the children list, its exit code is stored through translated_refmut at
the user-supplied pointer, and its pid is returned; when no matching
child is a zombie the call returns -2 with no state change.  The
reap-time Arc strong-count assertion of the source is a heap-ownership
check with no counterpart in this embedding. -/
def sys_waitpid (pt : PageTable) (m : Mem) (inner : ProcInner) (pid : Int) (ptr : Nat) :
    Option (Int × ProcInner × Mem) :=
  if !(inner.children.any (childMatches pid)) then
    some (-1, inner, m)
  else
    match findZombie pid inner.children with
    | some (idx, child) =>
      match translated_refmut pt m ptr child.exit_code with
      | none => none
      | some mem =>
        some ((child.pid : Int), { inner with children := inner.children.eraseIdx idx }, mem)
    | none => some (-2, inner, m)

/-- The state of one process as seen by sys_exec: its pid, its position
in the process tree, and its program image (standing for the
AddressSpace content and entry context built from the loaded data). -/
structure Process where
  pid : Nat
  image : Nat
  children : List Child
deriving DecidableEq, Repr

/-- Modelled from the spec: TaskControlBlock::exec (task module, not
under src/) discards the current AddressSpace mappings and user-visible
execution state of the caller and replaces them with a freshly built
AddressSpace and entry context for the new image, preserving the process
id and process-tree position. -/
def exec (p : Process) (data : Nat) : Process :=
  { p with image := data }

/-- Embedding of sys_exec (process.rs lines 62-72).  The external loader
lookup get_app_data_by_name is a parameter (it is outside this core).
On a hit the caller executes exec on the data and 0 is returned; on a
miss -1 is returned and the process is untouched. -/
def sys_exec (get_app_data_by_name : String → Option Nat) (p : Process) (path : String) :
    Int × Process :=
  match get_app_data_by_name path with
  | some data => (0, exec p data)
  | none => (-1, p)

/-- The state of one task as seen by sys_fork: its pid, its saved trap
context (register index to value) and its status. -/
structure ForkTask where
  pid : Nat
  trap_cx : Nat → Nat
  status : TaskStatus

/-- Modelled from the spec: TaskControlBlock::fork (task module, not
under src/) creates a new PCB whose saved register context snapshot is
cloned from the parent, with a fresh pid, submitted later to the
scheduler as Ready. -/
def fork (parent : ForkTask) (newPid : Nat) : ForkTask :=
  { pid := newPid, trap_cx := parent.trap_cx, status := TaskStatus.Ready }

/-- add_task: append the task to the ready queue of the scheduler. -/
def add_task (queue : List ForkTask) (t : ForkTask) : List ForkTask :=
  queue ++ [t]

/-- Embedding of sys_fork (process.rs lines 47-59): fork the current
task, force register x[10] (the return-value slot a0) of the child trap
context to 0, add the child to the scheduler, and return the new pid to
the parent.  Result: (parent return value, child task, new ready
queue). -/
def sys_fork (parent : ForkTask) (newPid : Nat) (queue : List ForkTask) :
    Int × ForkTask × List ForkTask :=
  let new_task := fork parent newPid
  let new_task2 :=
    { new_task with trap_cx := fun r => if r = 10 then 0 else new_task.trap_cx r }
  ((newPid : Int), new_task2, add_task queue new_task2)

/-! Concrete fixtures: small address spaces and process states used to
evaluate the embedded syscalls at explicit inputs. -/

/-- Physical memory initialised with the byte 171 everywhere, so that a
byte still equal to 171 after a call was not touched by it. -/
def memInit : Mem := fun _ => 171

/-- An address space with two consecutive virtual pages 16 and 17 mapped
to the NON-contiguous physical frames 5 and 9, both writable. -/
def ptTwoPages : PageTable :=
  fun v => if v = 16 then some ⟨5, true⟩ else if v = 17 then some ⟨9, true⟩ else none

/-- An address space with the single virtual page 16 mapped to physical
frame 5, writable. -/
def ptOnePage : PageTable := fun v => if v = 16 then some ⟨5, true⟩ else none

/-- An address space with no page mapped at all. -/
def ptUnmapped : PageTable := fun _ => none

/-- An address space with virtual page 16 mapped to frame 5 WITHOUT the
write permission bit. -/
def ptReadOnly : PageTable := fun v => if v = 16 then some ⟨5, false⟩ else none

/-- A caller with priority 16 and an accumulated stride of 100. -/
def innerBefore : ProcInner := { priority := 16, stride := 100, children := [] }

/-- A running (non-zombie) child with pid 2. -/
def childRunning : Child := { pid := 2, status := TaskStatus.Running, exit_code := 0 }

/-- A zombie child with pid 3 and exit code 7. -/
def childZombie : Child := { pid := 3, status := TaskStatus.Zombie, exit_code := 7 }

/-- A caller with one running child (pid 2) and one zombie child (pid 3). -/
def innerTwoKids : ProcInner :=
  { priority := 16, stride := 0, children := [childRunning, childZombie] }

/-- A caller with a single running child (pid 2). -/
def innerOneKid : ProcInner :=
  { priority := 16, stride := 0, children := [childRunning] }

/-- A process about to call exec: pid 4, image 1, one child. -/
def procBefore : Process := { pid := 4, image := 1, children := [childRunning] }

/-- A loader knowing a single program image named app, with data 7. -/
def loader0 : String → Option Nat := fun s => if s = "app" then some 7 else none

/-- A parent task for fork: pid 1, register r holding r + 7, Running. -/
def parent0 : ForkTask :=
  { pid := 1, trap_cx := fun r => r + 7, status := TaskStatus.Running }

/-! Theorems settling the claims. -/

/-- C1: the claim says the struct writes of sys_get_time and
sys_task_info resolve the virtual-to-physical translation separately for
each page touched, so that a span crossing a page boundary lands in the
correct backing frames even when those frames are non-contiguous.  The
code translates ONLY the page containing the start address.  At a
TimeVal placed at page offset 4088 (virtual address 69624 = 16*4096 +
4088, pages 16 and 17 mapped to the non-contiguous frames 5 and 9),
sys_get_time indexes the single 4096-byte frame array past its end and
panics instead of writing the second half through the mapping of page
17.  For a struct placed at page offset 4095 (virtual address 69631),
sys_task_info stores the bytes contiguously in physical memory: the
second byte (99) lands at physical address 24576 = start of frame 6, the
frame physically after frame 5, while frame 9 — the frame actually
backing virtual page 17, starting at 36864 — is left untouched (still
171). -/
theorem c1_no_per_page_translation :
    (sys_get_time ptTwoPages memInit 69624 0).isSome = false ∧
    (sys_task_info ptTwoPages memInit 69631 [17, 99]).map
        (fun r => (r.1, r.2 24575, r.2 24576, r.2 36864)) = some (0, 17, 99, 171) := by
  decide

/-- C2: the claim says that an unmapped (or non-writable) page in the
output span makes sys_get_time / sys_task_info return a negative error
value without terminating the kernel.  The code instead calls
translate(vpn).unwrap(): with the output pointer 65536 on an unmapped
page both syscalls panic the kernel (modelled as none — no return value
is produced), and with the page mapped read-only sys_get_time ignores
the permission bits entirely and reports success (returns 0) while
writing to the frame. -/
theorem c2_unmapped_pointer_panics :
    (sys_get_time ptUnmapped memInit 65536 0).isSome = false ∧
    (sys_task_info ptUnmapped memInit 65536 [1]).isSome = false ∧
    (sys_get_time ptReadOnly memInit 65536 0).map (fun r => r.1) = some 0 := by
  decide

/-- C4: the claim says sys_get_time writes sec = us / 1000000 and
usec = us % 1000000, covering every byte of both usize fields.  At
us = 3000000 (3 seconds) with the output at virtual address 65536
(mapped to frame 5, so physical base 20480) the code instead computes
sec = us / 1000000000 = 0 (first byte 0, not 3) and
usec = us % 1000000000 = 3000000 (first byte 3000000 % 256 = 192, not
0), and writes only the four low bytes of each 8-byte field: the bytes
at physical addresses 20484 (byte 4 of sec) and 20492 (byte 4 of usec)
still hold the initial value 171. -/
theorem c4_wrong_scale_and_partial_width :
    (sys_get_time ptOnePage memInit 65536 3000000).map
        (fun r => (r.1, r.2 20480, r.2 20488, r.2 20484, r.2 20492)) =
      some (0, 0, 192, 171, 171) := by
  decide

/-- C3 counterexample: for the caller innerBefore, whose accumulated
stride is 100, a successful sys_set_priority(3) leaves the stride field
equal to BIG_STRIDE / 3 = 715827882, not 100: the already-accumulated
stride value is NOT left unchanged, refuting the claim at this input. -/
theorem c3_cex_stride_clobbered :
    (sys_set_priority innerBefore 3).map (fun r => (r.1, r.2.stride)) =
        some (3, 715827882) ∧
    innerBefore.stride = 100 ∧ (715827882 : Nat) ≠ 100 := by
  decide

/-- C3 (amended): for every priority p > 1 whose u32 cast is nonzero, a
successful sys_set_priority(p) sets priority to p and stores the
recomputed per-turn increment BIG_STRIDE / (p as u32) into the stride
field — overwriting the already-accumulated stride rather than
preserving it — leaves the children list (and every other field)
unchanged, and returns p. -/
theorem c3_set_priority_overwrites_stride (inner : ProcInner) (prio : Int)
    (h1 : 1 < prio) (h2 : isizeToU32 prio ≠ 0) :
    sys_set_priority inner prio =
      some (prio, { inner with priority := prio, stride := BIG_STRIDE / isizeToU32 prio }) := by
  unfold sys_set_priority
  rw [if_neg (by omega), if_neg h2]

/-- C3 witness: the amended theorem applied at the concrete caller
innerBefore with priority 3. -/
theorem c3_set_priority_overwrites_stride_witness :
    sys_set_priority innerBefore 3 =
      some (3, { innerBefore with priority := 3, stride := BIG_STRIDE / isizeToU32 3 }) :=
  c3_set_priority_overwrites_stride innerBefore 3 (by decide) (by decide)

/-- C8: for every priority argument p ≤ 1, sys_set_priority(p) returns
-1 and performs no state change at all: the caller state it returns is
the input state itself. -/
theorem c8_set_priority_rejects_low (inner : ProcInner) (prio : Int) (h : prio ≤ 1) :
    sys_set_priority inner prio = some (-1, inner) := by
  unfold sys_set_priority
  rw [if_pos h]

/-- C8 witness: the rejection theorem applied at the concrete caller
innerBefore with priority 0. -/
theorem c8_set_priority_rejects_low_witness :
    sys_set_priority innerBefore 0 = some (-1, innerBefore) :=
  c8_set_priority_rejects_low innerBefore 0 (by decide)

/-! Helper lemmas about the children scan of sys_waitpid. -/

theorem anyMatches_false (pid : Int) (l : List Child)
    (h : ∀ c ∈ l, childMatches pid c = false) : l.any (childMatches pid) = false := by
  induction l with
  | nil => rfl
  | cons c cs ih =>
    have hc := h c (by simp)
    have hcs := ih (fun d hd => h d (by simp [hd]))
    simp [List.any_cons, hc, hcs]

theorem anyMatches_true (pid : Int) (l : List Child) (c : Child) (hc : c ∈ l)
    (hm : childMatches pid c = true) : l.any (childMatches pid) = true := by
  induction l with
  | nil => cases hc
  | cons d ds ih =>
    rcases List.mem_cons.mp hc with h | h
    · subst h; simp [List.any_cons, hm]
    · simp [List.any_cons, ih h]

theorem findZombie_none (pid : Int) (l : List Child)
    (h : ∀ c ∈ l, (is_zombie c && childMatches pid c) = false) :
    findZombie pid l = none := by
  induction l with
  | nil => rfl
  | cons c cs ih =>
    unfold findZombie
    rw [h c (by simp), ih (fun d hd => h d (by simp [hd]))]
    rfl

theorem findZombie_first (pid : Int) (l : List Child) :
    ∀ (idx : Nat) (child : Child),
      l.get? idx = some child →
      (is_zombie child && childMatches pid child) = true →
      (∀ k c, k < idx → l.get? k = some c → (is_zombie c && childMatches pid c) = false) →
      findZombie pid l = some (idx, child) := by
  induction l with
  | nil =>
    intro idx child hget _ _
    simp [List.get?] at hget
  | cons c cs ih =>
    intro idx child hget hz hfirst
    cases idx with
    | zero =>
      injection hget with h
      subst h
      unfold findZombie
      rw [hz]
      rfl
    | succ n =>
      have h0 : (is_zombie c && childMatches pid c) = false :=
        hfirst 0 c (Nat.succ_pos n) rfl
      have hrec := ih n child hget hz
        (fun k d hk hd => hfirst (k + 1) d (Nat.succ_lt_succ hk) hd)
      unfold findZombie
      rw [h0, hrec]
      rfl

/-- C5: case analysis of sys_waitpid.  If no child matches the pid
argument the call returns -1 and changes nothing.  If some child matches
but no matching child is a zombie, the call returns -2 and leaves the
state (in particular every child) untouched.  Otherwise, for the first
child (at index idx) that is a zombie and matches, with the page of the
output pointer mapped, the call removes exactly that child from the
children list, stores its exit code through the translation of the
user-supplied pointer, and returns its pid. -/
theorem c5_waitpid_cases (pt : PageTable) (m : Mem) (inner : ProcInner) (pid : Int)
    (ptr : Nat) :
    ((∀ c ∈ inner.children, childMatches pid c = false) →
      sys_waitpid pt m inner pid ptr = some (-1, inner, m)) ∧
    ((∃ c ∈ inner.children, childMatches pid c = true) →
      (∀ c ∈ inner.children, (is_zombie c && childMatches pid c) = false) →
      sys_waitpid pt m inner pid ptr = some (-2, inner, m)) ∧
    (∀ idx child pte,
      inner.children.get? idx = some child →
      (is_zombie child && childMatches pid child) = true →
      (∀ k c, k < idx → inner.children.get? k = some c →
        (is_zombie c && childMatches pid c) = false) →
      pt (ptr / PAGE_SIZE) = some pte →
      sys_waitpid pt m inner pid ptr =
        some ((child.pid : Int), { inner with children := inner.children.eraseIdx idx },
          writeBytesPhys m (pte.ppn * PAGE_SIZE + ptr % PAGE_SIZE)
            (i32Bytes child.exit_code))) := by
  refine ⟨?_, ?_, ?_⟩
  · intro h
    unfold sys_waitpid
    rw [anyMatches_false pid inner.children h]
    rfl
  · rintro ⟨c, hc, hm⟩ hz
    unfold sys_waitpid
    rw [anyMatches_true pid inner.children c hc hm, findZombie_none pid inner.children hz]
    rfl
  · intro idx child pte hget hz hfirst hpt
    have hmatch : childMatches pid child = true := by
      have h2 := hz
      simp only [Bool.and_eq_true] at h2
      exact h2.2
    have hmem : child ∈ inner.children := List.get?_mem hget
    unfold sys_waitpid
    rw [anyMatches_true pid inner.children child hmem hmatch,
      findZombie_first pid inner.children idx child hget hz hfirst]
    unfold translated_refmut
    rw [hpt]
    rfl

/-- C5 witness: the three cases of the theorem applied at concrete
states.  A caller with one running child (pid 2) asked for pid 5 gets
-1; asked for pid 2 it gets -2 with the child still in the tree; a
caller with a running child and a zombie child (pid 3, exit code 7)
asked for -1 reaps the zombie: index 1 is removed, the four exit-code
bytes are stored at physical base 5 * PAGE_SIZE, and 3 is returned. -/
theorem c5_waitpid_cases_witness :
    sys_waitpid ptOnePage memInit innerOneKid 5 0 = some (-1, innerOneKid, memInit) ∧
    sys_waitpid ptOnePage memInit innerOneKid 2 0 = some (-2, innerOneKid, memInit) ∧
    sys_waitpid ptOnePage memInit innerTwoKids (-1) 65536 =
      some ((childZombie.pid : Int),
        { innerTwoKids with children := innerTwoKids.children.eraseIdx 1 },
        writeBytesPhys memInit (5 * PAGE_SIZE + 65536 % PAGE_SIZE)
          (i32Bytes childZombie.exit_code)) := by
  refine ⟨?_, ?_, ?_⟩
  · exact (c5_waitpid_cases ptOnePage memInit innerOneKid 5 0).1 (by decide)
  · exact (c5_waitpid_cases ptOnePage memInit innerOneKid 2 0).2.1
      ⟨childRunning, by decide, by decide⟩ (by decide)
  · exact (c5_waitpid_cases ptOnePage memInit innerTwoKids (-1) 65536).2.2 1 childZombie
      ⟨5, true⟩ (by decide) (by decide)
      (by
        intro k c hk hg
        have hk0 : k = 0 := by omega
        subst hk0
        injection hg with h
        subst h
        decide)
      (by decide)

/-- C10: for every negative pid argument other than -1 (any isize in
[-2^63, -1)), sys_waitpid returns -1 and changes nothing, whatever the
children are, provided every child pid is below 2^63 (pids are returned
as non-negative isize values by getpid): the usize cast of such a pid is
at least 2^63 and can match no child pid. -/
theorem c10_waitpid_negative_pid (pt : PageTable) (m : Mem) (inner : ProcInner)
    (pid : Int) (ptr : Nat)
    (h1 : -(9223372036854775808 : Int) ≤ pid) (h2 : pid < -1)
    (h3 : ∀ c ∈ inner.children, c.pid < 9223372036854775808) :
    sys_waitpid pt m inner pid ptr = some (-1, inner, m) := by
  have hm : ∀ c ∈ inner.children, childMatches pid c = false := by
    intro c hc
    have hp := h3 c hc
    have hne : pid ≠ -1 := Int.ne_of_lt h2
    have hcast : isizeToUsize pid ≠ c.pid := by
      unfold isizeToUsize
      omega
    unfold childMatches
    rw [beq_eq_false_iff_ne.mpr hne, beq_eq_false_iff_ne.mpr hcast]
    rfl
  unfold sys_waitpid
  rw [anyMatches_false pid inner.children hm]
  rfl

/-- C10 witness: the theorem applied at pid = -2 against a caller with
one running child of pid 2. -/
theorem c10_waitpid_negative_pid_witness :
    sys_waitpid ptOnePage memInit innerOneKid (-2) 0 = some (-1, innerOneKid, memInit) :=
  c10_waitpid_negative_pid ptOnePage memInit innerOneKid (-2) 0
    (by decide) (by decide) (by decide)

/-- C6: when the loader lookup misses, sys_exec returns -1 and the
returned process is the caller itself, completely unchanged; when the
lookup hits with data, sys_exec returns 0 and the caller is replaced by
exec of the data, whose image is the freshly built one while the pid and
the tree position survive. -/
theorem c6_exec_cases (get_app_data_by_name : String → Option Nat) (p : Process)
    (path : String) :
    (get_app_data_by_name path = none →
      sys_exec get_app_data_by_name p path = (-1, p)) ∧
    (∀ data, get_app_data_by_name path = some data →
      sys_exec get_app_data_by_name p path = (0, exec p data) ∧
      (exec p data).image = data ∧ (exec p data).pid = p.pid ∧
      (exec p data).children = p.children) := by
  constructor
  · intro h
    unfold sys_exec
    rw [h]
  · intro data h
    unfold sys_exec
    rw [h]
    exact ⟨rfl, rfl, rfl, rfl⟩

/-- C6 witness: the theorem applied to loader0 both at a missing path
and at the known path app. -/
theorem c6_exec_cases_witness :
    sys_exec loader0 procBefore "nope" = (-1, procBefore) ∧
    sys_exec loader0 procBefore "app" = (0, exec procBefore 7) :=
  ⟨(c6_exec_cases loader0 procBefore "nope").1 (by decide),
   ((c6_exec_cases loader0 procBefore "app").2 7 (by decide)).1⟩

/-- C7: the child task produced by sys_fork has a trap context equal to
the parent context at every register except x10, where it is forced to
0; the child is Ready; the new ready queue is the old one with the child
appended (add_task submits it to the scheduler); and the value returned
to the parent is the new pid. -/
theorem c7_fork_spec (parent : ForkTask) (newPid : Nat) (queue : List ForkTask) :
    (sys_fork parent newPid queue).2.1.trap_cx 10 = 0 ∧
    (∀ r, r ≠ 10 → (sys_fork parent newPid queue).2.1.trap_cx r = parent.trap_cx r) ∧
    (sys_fork parent newPid queue).2.1.status = TaskStatus.Ready ∧
    (sys_fork parent newPid queue).2.2 = queue ++ [(sys_fork parent newPid queue).2.1] ∧
    (sys_fork parent newPid queue).1 = (newPid : Int) := by
  refine ⟨rfl, ?_, rfl, rfl, rfl⟩
  intro r hr
  unfold sys_fork fork
  simp [hr]

/-- C7 witness: the theorem applied at the concrete parent parent0 with
new pid 5 and an empty ready queue, sampled at register 3. -/
theorem c7_fork_spec_witness :
    (sys_fork parent0 5 []).2.1.trap_cx 10 = 0 ∧
    (sys_fork parent0 5 []).2.1.trap_cx 3 = parent0.trap_cx 3 ∧
    (sys_fork parent0 5 []).2.1.status = TaskStatus.Ready :=
  ⟨(c7_fork_spec parent0 5 []).1,
   (c7_fork_spec parent0 5 []).2.1 3 (by decide),
   (c7_fork_spec parent0 5 []).2.2.1⟩

end OS5
